import Mathlib

/-!
Verification of the notification-and-memoization core of the Connect
component (src/src/index.js).

Modelling conventions for the shallow embedding:
* JavaScript reference identity (`===` / `!==`) on derived-props values is
  modelled by decidable equality on an abstract type `P` of prop references.
* A field that JavaScript holds as `undefined`-or-value is an `Option`.
* `sourceSelector(store.getState(), props)` is an opaque computation whose
  outcome for one call is supplied as an `Except E P`: `.ok p` when it
  returns the reference `p`, `.error e` when it throws `e`.
* Mutable method replacement (`selector.run = noop`,
  `this.notifyNestedSubs = noop`, the self-unimplementing
  `componentDidUpdate`) is modelled by boolean fields checked by the
  corresponding operations; an operation that the source replaces with a
  no-op leaves the state unchanged and emits no events.
* Observable calls (notifyNestedSubs, setState, forceUpdate,
  trySubscribe, tryUnsubscribe) are recorded as an ordered event list.
* All operations are total Lean functions; "never throws" is expressed by
  an operation returning an ordinary state instead of an `Except`.
-/

namespace ConnectCore

/-- State of the stateful selector produced by `makeSelectorStateful`
(src/src/index.js lines 60-79).  `props` is `selector.props`
(initially `undefined`, hence `none`), `error` is `selector.error`,
`shouldComponentUpdate` is `selector.shouldComponentUpdate`.
`runReplaced` records whether `selector.run` has been overwritten with
`noop` by `componentWillUnmount`. -/
structure SelectorState (P E : Type) where
  props : Option P
  error : Option E
  shouldComponentUpdate : Bool
  runReplaced : Bool
deriving Repr, DecidableEq

/-- The selector state as freshly created by `makeSelectorStateful`:
no fields are initialised by the constructor, so `props`, `error` and
`shouldComponentUpdate` are all `undefined` (`none` / `false`). -/
def initialSelector (P E : Type) : SelectorState P E :=
  { props := none, error := none, shouldComponentUpdate := false,
    runReplaced := false }

/-- `selector.run(props)` from `makeSelectorStateful`
(src/src/index.js lines 63-75).  `result` is the outcome of
`sourceSelector(store.getState(), props)` for this call.  The source's
`try`/`catch` makes the body total: a thrown error is captured, never
propagated.  After `componentWillUnmount` the method is the no-op
(`runReplaced`), so the call leaves the state unchanged. -/
def runSelector {P E : Type} [DecidableEq P]
    (s : SelectorState P E) (result : Except E P) : SelectorState P E :=
  if s.runReplaced then s
  else
    match result with
    | .ok nextProps =>
        if some nextProps ≠ s.props ∨ s.error.isSome then
          { s with shouldComponentUpdate := true,
                   props := some nextProps,
                   error := none }
        else s
    | .error e =>
        { s with shouldComponentUpdate := true, error := some e }

/-- Observable calls made by a Connect instance.  `notify` is an actual
invocation of `this.subscription.notifyNestedSubs` (the bound copy on
`this`; after unmount the copy is `noop` and nothing is emitted).
`setStateReq` is `this.setState(dummyState)` and `forceUpdateReq` is
`this.forceUpdate()` — both request a visual update from the view-tree
runtime.  `trySub` / `tryUnsub` are the subscription-node calls. -/
inductive Event where
  | notify
  | setStateReq
  | forceUpdateReq
  | trySub
  | tryUnsub
deriving Repr, DecidableEq

/-- State of one `Connect` instance (the Controller), src/src/index.js
lines 81-294.  `S` is the type of subscription-node identities.

* `selector` — the stateful selector (`this.selector`).
* `subscription` — `this.subscription` (`none` when `null`/absent).
* `notifyReplaced` — whether `this.notifyNestedSubs` has been replaced by
  `noop` (componentWillUnmount); when `false` it is the bound
  `subscription.notifyNestedSubs`.
* `didUpdateHook` — whether `this.componentDidUpdate` is currently
  implemented as `notifyNestedSubsOnComponentDidUpdate` (it is
  `undefined` otherwise; the source swaps the method itself).
* `storePresent` — whether `this.store` is non-null.
* `propsMode` — `Boolean(props[storeKey])`: the store arrived via props.
* `shouldHandleStateChanges` — `Boolean(this.getOptions().mapStateToProps)`.
* `withRef` — `this.getOptions().options.withRef`. -/
structure ConnectState (P E S : Type) where
  selector : SelectorState P E
  subscription : Option S
  notifyReplaced : Bool
  didUpdateHook : Bool
  storePresent : Bool
  propsMode : Bool
  shouldHandleStateChanges : Bool
  withRef : Bool
deriving Repr, DecidableEq

variable {P E S : Type}

/-- The events produced by a call of `this.notifyNestedSubs()`: the real
bound method fires one notification pass; the `noop` installed at unmount
does nothing. -/
def callNotify (c : ConnectState P E S) : List Event :=
  if c.notifyReplaced then [] else [Event.notify]

/-- `onStateChange` (src/src/index.js lines 241-250): re-run the selector;
if `shouldComponentUpdate` is false afterwards, call `notifyNestedSubs()`
immediately; otherwise install `notifyNestedSubsOnComponentDidUpdate` as
`componentDidUpdate` and request a visual update via
`setState(dummyState)`. -/
def onStateChange [DecidableEq P]
    (c : ConnectState P E S) (result : Except E P) :
    ConnectState P E S × List Event :=
  let c1 := { c with selector := runSelector c.selector result }
  if ¬ c1.selector.shouldComponentUpdate then
    (c1, callNotify c1)
  else
    ({ c1 with didUpdateHook := true }, [Event.setStateReq])

/-- `notifyNestedSubsOnComponentDidUpdate` (src/src/index.js lines
252-260): first unimplement `componentDidUpdate` (`= undefined`), then
call `notifyNestedSubs()`; the notify therefore runs in the state in
which the hook is already gone. -/
def notifyNestedSubsOnComponentDidUpdate (c : ConnectState P E S) :
    ConnectState P E S × List Event :=
  let c1 := { c with didUpdateHook := false }
  (c1, callNotify c1)

/-- The view-tree runtime's commit step for `componentDidUpdate`: React
calls the method only when it is implemented; when `onStateChange` has not
installed it, the commit runs no hook. -/
def commitDidUpdate (c : ConnectState P E S) :
    ConnectState P E S × List Event :=
  if c.didUpdateHook then notifyNestedSubsOnComponentDidUpdate c
  else (c, [])

/-- `componentDidMount` (src/src/index.js lines 116-128): nothing when the
component does not handle state changes; otherwise
`subscription.trySubscribe()`, then `selector.run(restProps)`, then
`forceUpdate()` when `selector.shouldComponentUpdate` holds. -/
def componentDidMount [DecidableEq P]
    (c : ConnectState P E S) (result : Except E P) :
    ConnectState P E S × List Event :=
  if ¬ c.shouldHandleStateChanges then (c, [])
  else
    let c1 := { c with selector := runSelector c.selector result }
    (c1,
      Event.trySub ::
        (if c1.selector.shouldComponentUpdate then [Event.forceUpdateReq]
         else []))

/-- `componentWillReceiveProps` (src/src/index.js lines 130-132): the body
is exactly `this.selector.run(this.getRestProps(nextProps))`. -/
def componentWillReceiveProps [DecidableEq P]
    (c : ConnectState P E S) (result : Except E P) :
    ConnectState P E S × List Event :=
  ({ c with selector := runSelector c.selector result }, [])

/-- `shouldComponentUpdate` (src/src/index.js lines 134-136). -/
def shouldComponentUpdate (c : ConnectState P E S) : Bool :=
  c.selector.shouldComponentUpdate

/-- `componentWillUnmount` (src/src/index.js lines 138-145): unsubscribe
the subscription node when present, null it, replace
`this.notifyNestedSubs` and `selector.run` with `noop`, null the store,
and force `selector.shouldComponentUpdate` to false. -/
def componentWillUnmount (c : ConnectState P E S) :
    ConnectState P E S × List Event :=
  ({ c with
      subscription := none,
      notifyReplaced := true,
      storePresent := false,
      selector := { c.selector with runReplaced := true,
                                    shouldComponentUpdate := false } },
    if c.subscription.isSome then [Event.tryUnsub] else [])

/-- `render` (src/src/index.js lines 284-293): reset
`selector.shouldComponentUpdate` to false first; then throw
`selector.error` when set, otherwise render the child from
`selector.props`.  The second component is `.error e` for a throw and
`.ok props` for a normal render. -/
def render (c : ConnectState P E S) :
    ConnectState P E S × Except E (Option P) :=
  let c1 := { c with selector :=
                { c.selector with shouldComponentUpdate := false } }
  match c1.selector.error with
  | some e => (c1, .error e)
  | none => (c1, .ok c1.selector.props)

/-- `getChildContext` (src/src/index.js lines 107-114): the context slot
handed to descendants is `subscription || this.context[subscriptionKey]`
where `subscription` is `null` in props mode and `this.subscription`
otherwise. -/
def getChildContext (c : ConnectState P E S) (contextSub : Option S) :
    Option S :=
  let subscription := if c.propsMode then none else c.subscription
  subscription.or contextSub

/-- The extra fields `addExtraProps` (src/src/index.js lines 266-278) adds
on top of the selector's derived props for the direct child: a `ref` when
`withRef`, and the own subscription node under the subscription key when
in props mode with a live subscription. -/
structure ExtraProps (S : Type) where
  refAdded : Bool
  subscriptionProp : Option S
deriving Repr, DecidableEq

/-- `addExtraProps` (src/src/index.js lines 266-278), restricted to the
extra fields it may add (the derived props themselves pass through
unchanged). -/
def addExtraProps (c : ConnectState P E S) : ExtraProps S :=
  if ¬ c.withRef ∧ ¬ (c.propsMode ∧ c.subscription.isSome) then
    { refAdded := false, subscriptionProp := none }
  else
    { refAdded := c.withRef,
      subscriptionProp :=
        if c.propsMode ∧ c.subscription.isSome then c.subscription
        else none }

/-- `initSubscription` (src/src/index.js lines 215-239): nothing when the
component does not handle state changes; otherwise the parent subscription
is read from props in props mode and from context otherwise, a new
subscription node is created, and the bound `notifyNestedSubs` is
installed on `this`.  Returns the new state together with the parent
subscription chosen for the new node. -/
def initSubscription (c : ConnectState P E S) (newSub : S)
    (propsSub contextSub : Option S) :
    ConnectState P E S × Option S :=
  if ¬ c.shouldHandleStateChanges then (c, none)
  else
    ({ c with subscription := some newSub, notifyReplaced := false },
      if c.propsMode then propsSub else contextSub)

/-! ### Connection setup and its faults -/

/-- The factory lookup of `match` (src/src/index.js lines 40-44): iterate
the factory list from the last entry down to the first and return the
first truthy result (`match` is a Lean keyword, hence the name). -/
def matchFactories {A F : Type} (factories : List (A → Option F))
    (arg : A) : Option F :=
  factories.reverse.findSome? (fun f => f arg)

/-- The message of the error thrown by the fallback that `match` returns
when no factory accepts the argument (src/src/index.js lines 46-50). -/
def invalidValueMsg (ty name wcn : String) : String :=
  "Invalid value of type " ++ ty ++ " for " ++ name ++
    " argument when connecting component " ++ wcn ++ "."

/-- Modelled from the spec: the selector factory
(`./connect/selectorFactory`, imported at src/src/index.js line 8 but not
under src/) invokes each init function returned by `match` synchronously
while `initSelector` runs inside the `Connect` constructor — per the spec,
"Failure to resolve any stage (invalid argument type) is a configuration
error surfaced immediately at connection setup".  Invoking the fallback
that `match` returned for an unmatched argument throws the
invalid-value message. -/
def invokeMatched {A F : Type} (factories : List (A → Option F))
    (arg : A) (tyOf : A → String) (name wcn : String) : Except String F :=
  match matchFactories factories arg with
  | some f => Except.ok f
  | none => Except.error (invalidValueMsg (tyOf arg) name wcn)

/-- The message of the `invariant` raised by the `Connect` constructor
when neither props nor context supply a store (src/src/index.js lines
92-99).  `invariant` (the npm package imported at line 5) throws an error
carrying its message whenever its first argument is falsy. -/
def missingStoreMsg (displayName : String) : String :=
  "Could not find \"store\" in either the context or props of \"" ++
    displayName ++
    "\". Either wrap the root component in a <Provider>, or explicitly pass \"store\" as a prop to \"" ++
    displayName ++ "\"."

/-- The message of the `invariant` raised by `connect` when the wrapped
component is not a function (src/src/index.js lines 317-321);
`jsonRepr` stands for `JSON.stringify(WrappedComponent)`. -/
def connectTargetMsg (jsonRepr : String) : String :=
  "You must pass a component to the function returned by connect. Instead received "
    ++ jsonRepr

/-- The `invariant(typeof WrappedComponent == 'function', ...)` check at
the head of the wrapping function returned by `connect`
(src/src/index.js lines 316-321): it throws synchronously, before any
component class is built. -/
def connectTargetCheck (isFunction : Bool) (jsonRepr : String) :
    Except String Unit :=
  if isFunction then Except.ok () else Except.error (connectTargetMsg jsonRepr)

/-- Static inputs of the `Connect` constructor relevant to setup faults:
the three derivation-stage arguments (all of an abstract argument type
`A`), the three factory lists they are resolved against, the JavaScript
`typeof` function on `A`, and the two component names used in messages. -/
structure SetupConfig (A F : Type) where
  mapStateToProps : A
  mapDispatchToProps : A
  mergeProps : A
  stateFactories : List (A → Option F)
  dispatchFactories : List (A → Option F)
  mergeFactories : List (A → Option F)
  tyOf : A → String
  wrappedComponentName : String
  displayName : String

/-- The fault-relevant prefix of the `Connect` constructor
(src/src/index.js lines 82-103): resolve `this.store` as
`props[storeKey] || context[storeKey]`, raise the missing-store
`invariant` when it is absent, then run `initSelector`, which resolves
the three derivation stages via `match` and (modelled from the spec, see
`invokeMatched`) invokes the results synchronously.  Returns the three
resolved init functions and the store on success. -/
def constructSetup {A F St : Type} (cfg : SetupConfig A F)
    (propsStore contextStore : Option St) : Except String (F × F × F × St) :=
  match propsStore.or contextStore with
  | none => Except.error (missingStoreMsg cfg.displayName)
  | some st => do
      let f1 ← invokeMatched cfg.stateFactories cfg.mapStateToProps
        cfg.tyOf "mapStateToProps" cfg.wrappedComponentName
      let f2 ← invokeMatched cfg.dispatchFactories cfg.mapDispatchToProps
        cfg.tyOf "mapDispatchToProps" cfg.wrappedComponentName
      let f3 ← invokeMatched cfg.mergeFactories cfg.mergeProps
        cfg.tyOf "mergeProps" cfg.wrappedComponentName
      return (f1, f2, f3, st)

/-! ### Claim theorems -/

/-- C2: for every `selector.run(inputProps)` call whose derivation
completes without throwing (`.ok next`): if the new props reference
differs from `selector.props` or the previous run ended in error, then
`shouldComponentUpdate` is set true, `props` is updated to the new
reference and `error` is cleared; if the reference is the same and there
was no prior error the whole selector record — in particular
`shouldComponentUpdate` and the `props` reference — is left exactly as it
was. -/
theorem run_success_memoization {P E : Type} [DecidableEq P]
    (s : SelectorState P E) (next : P) (hrun : s.runReplaced = false) :
    ((some next ≠ s.props ∨ s.error.isSome) →
      runSelector s (Except.ok next) =
        { s with shouldComponentUpdate := true, props := some next,
                 error := none }) ∧
    (some next = s.props → s.error = none →
      runSelector s (Except.ok next) = s) := by
  constructor
  · intro h
    simp [runSelector, hrun, h]
  · intro hp he
    simp [runSelector, hrun, hp.symm, he]

/-- Witness for C2 at a concrete selector state: with previous props
reference `1` and no error, running with new reference `2` updates all
three fields, while a second hypothetical run is covered by the equal
branch. -/
def selW : SelectorState Nat String :=
  { props := some 1, error := none, shouldComponentUpdate := false,
    runReplaced := false }

theorem run_success_memoization_witness :
    selW.runReplaced = false ∧
    (((some 2 ≠ selW.props ∨ selW.error.isSome) →
      runSelector selW (Except.ok 2) =
        { selW with shouldComponentUpdate := true, props := some 2,
                    error := none }) ∧
    (some 2 = selW.props → selW.error = none →
      runSelector selW (Except.ok 2) = selW)) :=
  ⟨rfl, run_success_memoization selW 2 rfl⟩

/-- C3: for every `selector.run` call whose derivation throws `e`, the
error is captured into `selector.error`, `shouldComponentUpdate` is set
true, and `props` is left unchanged (the `with` update touches no other
field).  The catch block swallows the error: `runSelector` is a total
function returning a state, never propagating `e`. -/
theorem run_failure_captures_error {P E : Type} [DecidableEq P]
    (s : SelectorState P E) (e : E) (hrun : s.runReplaced = false) :
    runSelector s (Except.error e) =
      { s with shouldComponentUpdate := true, error := some e } ∧
    (runSelector s (Except.error e)).props = s.props := by
  simp [runSelector, hrun]

theorem run_failure_captures_error_witness :
    selW.runReplaced = false ∧
    (runSelector selW (Except.error "boom") =
      { selW with shouldComponentUpdate := true, error := some "boom" } ∧
    (runSelector selW (Except.error "boom")).props = selW.props) :=
  ⟨rfl, run_failure_captures_error selW "boom" rfl⟩

/-- C4: when `selector.error` is set, `render` throws exactly that error
instead of rendering, and the raise does not clear it: the post-render
state still holds the error.  It is cleared only by a subsequent
successful `run`, after which `props` updates resume (the run stores the
new reference). -/
theorem render_raises_and_keeps_error {P E S : Type} [DecidableEq P]
    (c : ConnectState P E S) (e : E) (next : P)
    (herr : c.selector.error = some e)
    (hrun : c.selector.runReplaced = false) :
    (render c).2 = Except.error e ∧
    (render c).1.selector.error = some e ∧
    (runSelector (render c).1.selector (Except.ok next)).error = none ∧
    (runSelector (render c).1.selector (Except.ok next)).props =
      some next := by
  refine ⟨?_, ?_, ?_, ?_⟩ <;>
    simp [render, runSelector, herr, hrun]

/-- Witness for C4: a Connect state whose selector holds a stored error. -/
def connW : ConnectState Nat String Nat :=
  { selector := { props := some 1, error := some "boom",
                  shouldComponentUpdate := true, runReplaced := false },
    subscription := some 1, notifyReplaced := false, didUpdateHook := false,
    storePresent := true, propsMode := false,
    shouldHandleStateChanges := true, withRef := false }

theorem render_raises_and_keeps_error_witness :
    connW.selector.error = some "boom" ∧
    connW.selector.runReplaced = false ∧
    ((render connW).2 = Except.error "boom" ∧
    (render connW).1.selector.error = some "boom" ∧
    (runSelector (render connW).1.selector (Except.ok 7)).error = none ∧
    (runSelector (render connW).1.selector (Except.ok 7)).props = some 7) :=
  ⟨rfl, rfl, render_raises_and_keeps_error connW "boom" 7 rfl rfl⟩

/-- C9: `render` resets `selector.shouldComponentUpdate` to false before
anything else — the reset has happened in the post-render state even on
the path that then throws the stored error. -/
theorem render_resets_flag {P E S : Type}
    (c : ConnectState P E S) (e : E) :
    (render c).1.selector.shouldComponentUpdate = false ∧
    (c.selector.error = some e → (render c).2 = Except.error e) := by
  constructor
  · cases h : c.selector.error <;> simp [render, h]
  · intro herr
    simp [render, herr]

theorem render_resets_flag_witness :
    (render connW).1.selector.shouldComponentUpdate = false ∧
    (connW.selector.error = some "boom" →
      (render connW).2 = Except.error "boom") :=
  render_resets_flag connW "boom"

/-- C5: `componentWillUnmount` makes the Controller inert: it emits a
`tryUnsub` exactly when a subscription node is present, nulls the
subscription, replaces `notifyNestedSubs` with `noop`, replaces
`selector.run` with `noop`, and forces `shouldComponentUpdate` to false.
Afterwards every `selector.run` call leaves the state untouched and every
`notifyNestedSubs` call emits nothing; both are total functions, so
neither can throw. -/
theorem unmount_makes_inert {P E S : Type} [DecidableEq P]
    (c : ConnectState P E S) (r : Except E P) :
    (componentWillUnmount c).2 =
      (if c.subscription.isSome then [Event.tryUnsub] else []) ∧
    (componentWillUnmount c).1.subscription = none ∧
    (componentWillUnmount c).1.notifyReplaced = true ∧
    (componentWillUnmount c).1.selector.runReplaced = true ∧
    (componentWillUnmount c).1.selector.shouldComponentUpdate = false ∧
    runSelector (componentWillUnmount c).1.selector r =
      (componentWillUnmount c).1.selector ∧
    callNotify (componentWillUnmount c).1 = [] := by
  refine ⟨rfl, rfl, rfl, rfl, rfl, ?_, rfl⟩
  simp [componentWillUnmount, runSelector]

/-- C10: `componentWillReceiveProps` only re-runs the stateful selector:
its entire effect is the updated selector field and an empty event
trace — in particular it never invokes `notifyNestedSubs`, which is
reached only through `onStateChange` or the deferred
`componentDidUpdate` hook that `onStateChange` installs. -/
theorem receive_props_only_runs_selector {P E S : Type} [DecidableEq P]
    (c : ConnectState P E S) (result : Except E P) :
    componentWillReceiveProps c result =
      ({ c with selector := runSelector c.selector result }, []) ∧
    Event.notify ∉ (componentWillReceiveProps c result).2 := by
  exact ⟨rfl, by simp [componentWillReceiveProps]⟩

/-- C8: when the component handles state changes, `componentDidMount`
first emits `trySubscribe` on the subscription node, then re-runs the
selector against current inputs, and appends a `forceUpdate` exactly when
the flag is set after that run; when it does not handle state changes,
`componentDidMount` does nothing (no subscribe, no forced update) and
`initSubscription` creates no subscription node. -/
theorem did_mount_subscribe_then_update {P E S : Type} [DecidableEq P]
    (c : ConnectState P E S) (result : Except E P) (newSub : S)
    (propsSub contextSub : Option S) :
    (c.shouldHandleStateChanges = true →
      componentDidMount c result =
        ({ c with selector := runSelector c.selector result },
          if (runSelector c.selector result).shouldComponentUpdate then
            [Event.trySub, Event.forceUpdateReq]
          else [Event.trySub])) ∧
    (c.shouldHandleStateChanges = false →
      componentDidMount c result = (c, []) ∧
      initSubscription c newSub propsSub contextSub = (c, none)) := by
  constructor
  · intro h
    by_cases hu : (runSelector c.selector result).shouldComponentUpdate <;>
      simp [componentDidMount, h, hu]
  · intro h
    exact ⟨by simp [componentDidMount, h], by simp [initSubscription, h]⟩

/-- Witness for C8, both branches: `connW` handles state changes and a
successful run with a fresh reference sets the flag, so the events are
`trySub` then `forceUpdateReq`; `connNoStateW` has no state-derivation
stage, so mounting does nothing and no subscription is created. -/
def connNoStateW : ConnectState Nat String Nat :=
  { selector := initialSelector Nat String,
    subscription := none, notifyReplaced := true, didUpdateHook := false,
    storePresent := true, propsMode := false,
    shouldHandleStateChanges := false, withRef := false }

theorem did_mount_subscribe_then_update_witness :
    (connW.shouldHandleStateChanges = true →
      componentDidMount connW (Except.ok 7) =
        ({ connW with selector := runSelector connW.selector (Except.ok 7) },
          if (runSelector connW.selector (Except.ok 7)).shouldComponentUpdate
          then [Event.trySub, Event.forceUpdateReq] else [Event.trySub])) ∧
    (connNoStateW.shouldHandleStateChanges = false →
      componentDidMount connNoStateW (Except.ok 7) = (connNoStateW, []) ∧
      initSubscription connNoStateW 3 none none = (connNoStateW, none)) :=
  ⟨(did_mount_subscribe_then_update connW (Except.ok 7) 3 none none).1,
   (did_mount_subscribe_then_update connNoStateW (Except.ok 7) 3 none
      none).2⟩

/-- C1: on a store-change notification, `onStateChange` re-runs the
stateful selector.  If `shouldComponentUpdate` is false afterwards it
immediately calls `notifyNestedSubs()` (one `notify` event, no visual
update requested).  If it is true, no notification is forwarded yet:
the only event is the `setState` visual-update request and the deferred
`componentDidUpdate` hook is installed; the commit that follows the
visual update then notifies exactly once — the hook unimplements itself
before notifying, so the post-commit state has no hook and a further
commit emits nothing. -/
theorem on_state_change_notification_policy {P E S : Type} [DecidableEq P]
    (c : ConnectState P E S) (result : Except E P)
    (hlive : c.notifyReplaced = false) :
    ((runSelector c.selector result).shouldComponentUpdate = false →
      onStateChange c result =
        ({ c with selector := runSelector c.selector result },
          [Event.notify])) ∧
    ((runSelector c.selector result).shouldComponentUpdate = true →
      (onStateChange c result).2 = [Event.setStateReq] ∧
      (onStateChange c result).1.didUpdateHook = true ∧
      (commitDidUpdate (onStateChange c result).1).2 = [Event.notify] ∧
      (commitDidUpdate (onStateChange c result).1).1.didUpdateHook =
        false ∧
      (commitDidUpdate
        (commitDidUpdate (onStateChange c result).1).1).2 = []) := by
  constructor
  · intro h
    simp [onStateChange, callNotify, h, hlive]
  · intro h
    refine ⟨?_, ?_, ?_, ?_, ?_⟩ <;>
      simp [onStateChange, commitDidUpdate,
        notifyNestedSubsOnComponentDidUpdate, callNotify, h, hlive]

/-- Witness for C1: `connW`'s selector has `shouldComponentUpdate` already
true (and a successful run with a fresh reference keeps it true), so the
notification is deferred through the hook; the commit fires exactly one
notify and a second commit fires none. -/
theorem on_state_change_notification_policy_witness :
    connW.notifyReplaced = false ∧
    (runSelector connW.selector (Except.ok 7)).shouldComponentUpdate =
      true ∧
    ((onStateChange connW (Except.ok 7)).2 = [Event.setStateReq] ∧
     (onStateChange connW (Except.ok 7)).1.didUpdateHook = true ∧
     (commitDidUpdate (onStateChange connW (Except.ok 7)).1).2 =
       [Event.notify] ∧
     (commitDidUpdate
        (onStateChange connW (Except.ok 7)).1).1.didUpdateHook = false ∧
     (commitDidUpdate
        (commitDidUpdate (onStateChange connW (Except.ok 7)).1).1).2 =
       []) :=
  ⟨rfl, by decide,
   (on_state_change_notification_policy connW (Except.ok 7) rfl).2
     (by decide)⟩

/-- A props-mode Connect state whose own subscription node (`1`) differs
from the ambient context one (`2`). -/
def propsModeW : ConnectState Nat String Nat :=
  { selector := initialSelector Nat String,
    subscription := some 1, notifyReplaced := false, didUpdateHook := false,
    storePresent := true, propsMode := true,
    shouldHandleStateChanges := true, withRef := false }

/-- Counterexample to C7 as stated: a props-mode Controller does NOT
shadow the ambient context subscription slot with its own node — with own
node `1` and ambient node `2`, `getChildContext` hands descendants the
ambient node `2`, not the own node `1` (src/src/index.js line 112 sets
`subscription` to `null` in props mode, so the context slot passes the
inherited subscription through). -/
theorem props_mode_does_not_shadow_context :
    propsModeW.propsMode = true ∧
    propsModeW.subscription = some 1 ∧
    getChildContext propsModeW (some 2) = some 2 ∧
    getChildContext propsModeW (some 2) ≠ propsModeW.subscription := by
  decide

/-- C7 (amended): a Controller that received its store via props
(props mode) leaves the ambient context subscription slot transparent —
descendants see the inherited context subscription unchanged — and
instead delivers its own Subscription Node to its direct child as a prop
(`addExtraProps` adds it under the subscription key); a Controller using
the ambient context store shadows the slot with its own subscription
node, falling back to the inherited one only when it has none. -/
theorem child_context_channel {P E S : Type}
    (c : ConnectState P E S) (contextSub : Option S) :
    (c.propsMode = true → getChildContext c contextSub = contextSub) ∧
    (c.propsMode = true → c.subscription.isSome →
      (addExtraProps c).subscriptionProp = c.subscription) ∧
    (c.propsMode = false →
      getChildContext c contextSub = c.subscription.or contextSub) := by
  refine ⟨?_, ?_, ?_⟩
  · intro h
    simp [getChildContext, h]
  · intro h hsub
    simp [addExtraProps, h, hsub]
  · intro h
    simp [getChildContext, h]

theorem child_context_channel_witness :
    (propsModeW.propsMode = true →
      getChildContext propsModeW (some 2) = some 2) ∧
    (propsModeW.propsMode = true → propsModeW.subscription.isSome →
      (addExtraProps propsModeW).subscriptionProp =
        propsModeW.subscription) ∧
    (propsModeW.propsMode = false →
      getChildContext propsModeW (some 2) =
        propsModeW.subscription.or (some 2)) :=
  child_context_channel propsModeW (some 2)

/-- C6: every setup fault fails fast with a synchronous error whose
message identifies the offending value and the connected component:
(1) when neither props nor context supply a store, construction throws
the missing-store message naming the display name; (2) when the
derivation-stage argument `mapStateToProps` is matched by no factory,
construction itself (not a later runtime use) throws the invalid-value
message naming the argument's `typeof`, the argument name and the
wrapped component — the error surfaces as the `Except.error` result of
`constructSetup`; (3) a non-function wrapped component makes `connect`'s
wrapping function throw a message carrying the offending value's JSON
representation.  The final conjuncts exhibit the identifying pieces as
literal segments of each message. -/
theorem setup_faults_fail_fast {A F St : Type} (cfg : SetupConfig A F)
    (ps cs : Option St) (json : String)
    (hstore : Option.or ps cs ≠ none)
    (hmatch : matchFactories cfg.stateFactories cfg.mapStateToProps =
      none) :
    constructSetup cfg (none : Option St) none =
      Except.error (missingStoreMsg cfg.displayName) ∧
    constructSetup cfg ps cs =
      Except.error (invalidValueMsg (cfg.tyOf cfg.mapStateToProps)
        "mapStateToProps" cfg.wrappedComponentName) ∧
    connectTargetCheck false json =
      Except.error (connectTargetMsg json) ∧
    (∃ pre post, invalidValueMsg (cfg.tyOf cfg.mapStateToProps)
        "mapStateToProps" cfg.wrappedComponentName =
        pre ++ cfg.wrappedComponentName ++ post) ∧
    (∃ pre post, invalidValueMsg (cfg.tyOf cfg.mapStateToProps)
        "mapStateToProps" cfg.wrappedComponentName =
        pre ++ cfg.tyOf cfg.mapStateToProps ++ post) ∧
    (∃ pre post, missingStoreMsg cfg.displayName =
        pre ++ cfg.displayName ++ post) ∧
    (∃ pre, connectTargetMsg json = pre ++ json) := by
  refine ⟨rfl, ?_, rfl, ?_, ?_, ?_, ?_⟩
  · obtain ⟨st, hst⟩ := Option.ne_none_iff_exists'.mp hstore
    simp [constructSetup, hst, invokeMatched, hmatch, Bind.bind,
      Except.bind]
  · exact ⟨"Invalid value of type " ++ cfg.tyOf cfg.mapStateToProps ++
      " for " ++ "mapStateToProps" ++
      " argument when connecting component ", ".", rfl⟩
  · exact ⟨"Invalid value of type ",
      " for " ++ "mapStateToProps" ++
        " argument when connecting component " ++
        cfg.wrappedComponentName ++ ".",
      by simp [invalidValueMsg, String.append_assoc]⟩
  · exact ⟨"Could not find \"store\" in either the context or props of \"" ++
      cfg.displayName ++
      "\". Either wrap the root component in a <Provider>, or explicitly pass \"store\" as a prop to \"",
      "\".", rfl⟩
  · exact ⟨"You must pass a component to the function returned by connect. Instead received ",
      rfl⟩

/-- Witness for C6 at a concrete configuration: a `mapStateToProps`
argument (`typeof` name `"boolean"`) that no factory accepts, a store
present via context, and a non-function wrapped component whose JSON is
`"3"`. -/
def cfgW : SetupConfig String Nat :=
  { mapStateToProps := "true", mapDispatchToProps := "f",
    mergeProps := "g",
    stateFactories := [fun _ => none],
    dispatchFactories := [fun _ => some 1],
    mergeFactories := [fun _ => some 2],
    tyOf := fun _ => "boolean",
    wrappedComponentName := "MyComp", displayName := "Connect(MyComp)" }

theorem setup_faults_fail_fast_witness :
    (Option.or (none : Option Nat) (some 7) ≠ none ∧
     matchFactories cfgW.stateFactories cfgW.mapStateToProps = none) ∧
    (constructSetup cfgW (none : Option Nat) none =
      Except.error (missingStoreMsg cfgW.displayName) ∧
    constructSetup cfgW (none : Option Nat) (some 7) =
      Except.error (invalidValueMsg (cfgW.tyOf cfgW.mapStateToProps)
        "mapStateToProps" cfgW.wrappedComponentName) ∧
    connectTargetCheck false "3" =
      Except.error (connectTargetMsg "3") ∧
    (∃ pre post, invalidValueMsg (cfgW.tyOf cfgW.mapStateToProps)
        "mapStateToProps" cfgW.wrappedComponentName =
        pre ++ cfgW.wrappedComponentName ++ post) ∧
    (∃ pre post, invalidValueMsg (cfgW.tyOf cfgW.mapStateToProps)
        "mapStateToProps" cfgW.wrappedComponentName =
        pre ++ cfgW.tyOf cfgW.mapStateToProps ++ post) ∧
    (∃ pre post, missingStoreMsg cfgW.displayName =
        pre ++ cfgW.displayName ++ post) ∧
    (∃ pre, connectTargetMsg "3" = pre ++ "3")) :=
  ⟨⟨by simp, rfl⟩,
   setup_faults_fail_fast cfgW (none : Option Nat) (some 7) "3"
     (by simp) rfl⟩

end ConnectCore
